import Mathlib

/-
Shallow embedding of src/src/pages/student/BookRoom.tsx.

The component holds five pieces of React state (loading, currentAllocation,
availableRooms, error, bookingInProgress) and exposes two async operations:

  - fetchCurrentAllocationAndRooms (the "resolve" operation of the spec):
    authenticates, queries the most recent allocation of the user (by
    start_date descending, limit 1, inner-joined with its room), and if none
    exists queries the rooms whose id is not among the room_ids of
    allocations with a null end_date.

  - handleBookRoom (the "book" operation of the spec): authenticates,
    inserts one allocation record {student_id, room_id, start_date = now,
    end_date = null}, and on success re-runs the resolve operation.

External effects are made explicit: the auth provider is an Option of a
user id, each store query result is a DbResult (failure, or data that may
be null), and outcomes record which queries were issued, which error was
thrown, and whether console.error ran.  Timestamps are modelled as Nat
(ISO-8601 strings compare chronologically, so only the order matters).
-/

/-- A dormitory room row, after the Room interface of BookRoom.tsx. -/
structure Room where
  id : String
  room_number : String
  floor : Int
  capacity : Int
  price_per_month : Int
deriving DecidableEq, Repr

/-- A row of the room_allocations table (schema of section 6 of the spec). -/
structure AllocationRecord where
  id : String
  student_id : String
  room_id : String
  start_date : Nat
  end_date : Option Nat
deriving DecidableEq, Repr

/-- Shape of one joined allocation row, after the RoomAllocationResponse
interface of BookRoom.tsx. -/
structure RoomAllocationResponse where
  id : String
  start_date : Nat
  end_date : Option Nat
  rooms : Room
deriving DecidableEq, Repr

/-- Shape of the currentAllocation state, after the RoomAllocation
interface of BookRoom.tsx. -/
structure RoomAllocation where
  id : String
  room : Room
  start_date : Nat
  end_date : Option Nat
deriving DecidableEq, Repr

/-- The relational store: the rooms table and the room_allocations table. -/
structure Store where
  rooms : List Room
  room_allocations : List AllocationRecord
deriving DecidableEq, Repr

/-- Result of one store query: an error, or data that may be null. -/
inductive DbResult (α : Type) where
  | failure
  | success (data : Option α)
deriving DecidableEq, Repr

/-- Kind of error thrown inside a try block of BookRoom.tsx. -/
inductive ErrKind where
  | unauthenticated
  | queryFailure
  | insertFailure
deriving DecidableEq, Repr

/-- The React state of the BookRoom component. -/
structure ComponentState where
  loading : Bool
  currentAllocation : Option RoomAllocation
  availableRooms : List Room
  error : Option String
  bookingInProgress : Bool
deriving DecidableEq, Repr

/-- The error message set by the catch block of fetchCurrentAllocationAndRooms. -/
def fetchErrorMsg : String := "Failed to fetch room details"

/-- The error message set by the catch block of handleBookRoom. -/
def bookErrorMsg : String := "Failed to book room. Please try again."

/-- The inner join of one allocation record with its room
(rooms!inner in the select of lines 46-63): none when no room row
matches the record's room_id, in which case the joined row is dropped. -/
def allocationJoin (s : Store) (a : AllocationRecord) : Option RoomAllocationResponse :=
  (s.rooms.find? (fun r => r.id == a.room_id)).map
    (fun r => { id := a.id, start_date := a.start_date, end_date := a.end_date, rooms := r })

/-- Order by start_date descending and take the first row (lines 61-63):
the first row of maximal start_date, ties resolved in favour of the
earlier row as a stable descending sort would. -/
def mostRecentAux (a : RoomAllocationResponse) :
    List RoomAllocationResponse → RoomAllocationResponse
  | [] => a
  | b :: rest =>
    if (mostRecentAux b rest).start_date > a.start_date then mostRecentAux b rest else a

def mostRecent : List RoomAllocationResponse → Option RoomAllocationResponse
  | [] => none
  | a :: rest => some (mostRecentAux a rest)

/-- The allocation query of lines 46-63: rows of room_allocations with
student_id = uid, inner-joined with rooms, ordered by start_date
descending, limit 1, maybeSingle. -/
def allocationQuery (s : Store) (uid : String) : Option RoomAllocationResponse :=
  mostRecent ((s.room_allocations.filter (fun a => a.student_id == uid)).filterMap
    (allocationJoin s))

/-- The subselect of lines 87-91: room_ids of allocations whose end_date is null. -/
def openRoomIds (s : Store) : List String :=
  (s.room_allocations.filter (fun a => a.end_date == none)).map (fun a => a.room_id)

/-- The rooms query of lines 83-91: rooms whose id is not in the subselect. -/
def availableRoomsQuery (s : Store) : List Room :=
  s.rooms.filter (fun r => !((openRoomIds s).contains r.id))

/-- External inputs of one run of fetchCurrentAllocationAndRooms: the auth
provider's answer and the two query responses the store would give. -/
structure ResolveEnv where
  auth : Option String
  allocResp : DbResult RoomAllocationResponse
  roomsResp : DbResult (List Room)
deriving DecidableEq, Repr

/-- Outcome of one run of fetchCurrentAllocationAndRooms: the final React
state, which queries were issued, which error was thrown, and whether
console.error ran. -/
structure ResolveOutcome where
  state : ComponentState
  allocQueried : Bool
  roomsQueried : Bool
  thrown : Option ErrKind
  logged : Bool
deriving DecidableEq, Repr

/-- Embedding of fetchCurrentAllocationAndRooms (lines 37-106).  Follows
the source line by line: setLoading true; get the user and throw if null;
run the allocation query, throwing on error; if a row came back set
currentAllocation and return; otherwise run the rooms query, throwing on
error, and set availableRooms to the data or the empty list; the catch
block sets the generic error message, and the finally block clears
loading on every path. -/
def fetchCurrentAllocationAndRooms (env : ResolveEnv) (st : ComponentState) : ResolveOutcome :=
  let st1 : ComponentState := { st with loading := true }
  match env.auth with
  | none =>
    { state := { st1 with error := some fetchErrorMsg, loading := false },
      allocQueried := false, roomsQueried := false,
      thrown := some ErrKind.unauthenticated, logged := true }
  | some _ =>
    match env.allocResp with
    | DbResult.failure =>
      { state := { st1 with error := some fetchErrorMsg, loading := false },
        allocQueried := true, roomsQueried := false,
        thrown := some ErrKind.queryFailure, logged := true }
    | DbResult.success (some d) =>
      { state := { st1 with
          currentAllocation := some
            { id := d.id, room := d.rooms, start_date := d.start_date, end_date := d.end_date },
          loading := false },
        allocQueried := true, roomsQueried := false, thrown := none, logged := false }
    | DbResult.success none =>
      match env.roomsResp with
      | DbResult.failure =>
        { state := { st1 with error := some fetchErrorMsg, loading := false },
          allocQueried := true, roomsQueried := true,
          thrown := some ErrKind.queryFailure, logged := true }
      | DbResult.success data =>
        { state := { st1 with availableRooms := data.getD [], loading := false },
          allocQueried := true, roomsQueried := true, thrown := none, logged := false }

/-- The environment a correctly functioning store presents to
fetchCurrentAllocationAndRooms when uid is the authenticated user: both
queries succeed and answer according to the query semantics above. -/
def honestEnv (s : Store) (uid : String) : ResolveEnv :=
  { auth := some uid,
    allocResp := DbResult.success (allocationQuery s uid),
    roomsResp := DbResult.success (some (availableRoomsQuery s)) }

/-- External inputs of one run of handleBookRoom: the auth provider's
answer, whether the insert fails, the current time, and the record id the
store generates for the inserted row. -/
structure BookEnv where
  auth : Option String
  insertFails : Bool
  now : Nat
  newId : String
deriving DecidableEq, Repr

/-- Outcome of one run of handleBookRoom: the final React state, the store
after the run, how many insert statements were attempted, whether the
refresh resolve ran, which error was thrown, and whether console.error ran. -/
structure BookOutcome where
  state : ComponentState
  store : Store
  insertAttempts : Nat
  resolveRan : Bool
  thrown : Option ErrKind
  logged : Bool
deriving DecidableEq, Repr

/-- Embedding of handleBookRoom (lines 108-135).  Follows the source:
setBookingInProgress true; get the user and throw if null; insert
{student_id, room_id, start_date = now, end_date = null}, throwing on
error; on success refresh by re-running fetchCurrentAllocationAndRooms
against the updated store; the catch block sets the generic booking error
message, and the finally block clears bookingInProgress on every path. -/
def handleBookRoom (env : BookEnv) (s : Store) (roomId : String) (st : ComponentState) : BookOutcome :=
  let st1 : ComponentState := { st with bookingInProgress := true }
  match env.auth with
  | none =>
    { state := { st1 with error := some bookErrorMsg, bookingInProgress := false },
      store := s, insertAttempts := 0, resolveRan := false,
      thrown := some ErrKind.unauthenticated, logged := true }
  | some uid =>
    if env.insertFails then
      { state := { st1 with error := some bookErrorMsg, bookingInProgress := false },
        store := s, insertAttempts := 1, resolveRan := false,
        thrown := some ErrKind.insertFailure, logged := true }
    else
      let newRec : AllocationRecord :=
        { id := env.newId, student_id := uid, room_id := roomId,
          start_date := env.now, end_date := none }
      let s2 : Store := { s with room_allocations := s.room_allocations ++ [newRec] }
      let ro := fetchCurrentAllocationAndRooms (honestEnv s2 uid) st1
      { state := { ro.state with bookingInProgress := false },
        store := s2, insertAttempts := 1, resolveRan := true,
        thrown := none, logged := false }

/-- The component's initial state (lines 27-31). -/
def initialState : ComponentState :=
  { loading := true, currentAllocation := none, availableRooms := [],
    error := none, bookingInProgress := false }


/-- The record handleBookRoom inserts (lines 115-122): the new allocation
of uid on roomId starting now with a null end_date. -/
def insertedRecord (env : BookEnv) (uid roomId : String) : AllocationRecord :=
  { id := env.newId, student_id := uid, room_id := roomId,
    start_date := env.now, end_date := none }

/-- The store after handleBookRoom's successful insert. -/
def storeAfterInsert (env : BookEnv) (s : Store) (uid roomId : String) : Store :=
  { s with room_allocations := s.room_allocations ++ [insertedRecord env uid roomId] }

/-- Sample student identity used in concrete instances. -/
def studentA : String := "studentA"

/-- Second sample student identity used in concrete instances. -/
def studentB : String := "studentB"

/-- Identifier of the first sample room. -/
def ridR1 : String := "R1"

/-- Identifier of the second sample room. -/
def ridR2 : String := "R2"

/-- Sample room R1 of the scenario in section 8 of the spec. -/
def roomR1 : Room :=
  { id := ridR1, room_number := "R1", floor := 1, capacity := 2, price_per_month := 500 }

/-- Sample room R2 of the scenario in section 8 of the spec. -/
def roomR2 : Room :=
  { id := ridR2, room_number := "R2", floor := 2, capacity := 1, price_per_month := 600 }

/-- Sample store with rooms R1 and R2 and no allocations. -/
def sampleStore : Store := { rooms := [roomR1, roomR2], room_allocations := [] }

/-- Record id the store generates in the sample booking. -/
def allocId1 : String := "alloc1"

/-- Book environment of the sample booking: studentA authenticated, insert
succeeds at time 100. -/
def sampleBookEnv : BookEnv :=
  { auth := some studentA, insertFails := false, now := 100, newId := allocId1 }

/-- The store after the sample booking of room R1 by studentA. -/
def storeAfterBook : Store :=
  (handleBookRoom sampleBookEnv sampleStore ridR1 initialState).store

/-- Sample store holding one ended allocation of studentA on room R1. -/
def allocatedStore : Store :=
  { rooms := [roomR1, roomR2],
    room_allocations :=
      [{ id := allocId1, student_id := studentA, room_id := ridR1,
         start_date := 10, end_date := some 20 }] }

/-- Resolve environment with no authenticated user. -/
def unauthEnv : ResolveEnv :=
  { auth := none, allocResp := DbResult.success none, roomsResp := DbResult.success none }

/-- Resolve environment whose allocation query fails. -/
def failAllocEnv : ResolveEnv :=
  { auth := some studentA, allocResp := DbResult.failure, roomsResp := DbResult.success none }

/-- Resolve environment whose rooms query answers null data. -/
def nullRoomsEnv : ResolveEnv :=
  { auth := some studentA, allocResp := DbResult.success none,
    roomsResp := DbResult.success none }

/-- Sample joined allocation row used in concrete instances. -/
def sampleResponse : RoomAllocationResponse :=
  { id := allocId1, start_date := 5, end_date := none, rooms := roomR1 }

/-- Resolve environment whose allocation query finds a row. -/
def foundEnv : ResolveEnv :=
  { auth := some studentA, allocResp := DbResult.success (some sampleResponse),
    roomsResp := DbResult.success none }

/-- Book environment with no authenticated user. -/
def unauthBookEnv : BookEnv :=
  { auth := none, insertFails := false, now := 0, newId := allocId1 }

/-- Book environment whose insert fails. -/
def failBookEnv : BookEnv :=
  { auth := some studentA, insertFails := true, now := 0, newId := allocId1 }

/-- Unfolding equation for mostRecentAux on the empty tail. -/
theorem mostRecentAux_nil (a : RoomAllocationResponse) : mostRecentAux a [] = a := rfl

/-- Unfolding equation for mostRecentAux on a cons tail. -/
theorem mostRecentAux_cons (a b : RoomAllocationResponse) (rest : List RoomAllocationResponse) :
    mostRecentAux a (b :: rest) =
      if (mostRecentAux b rest).start_date > a.start_date then mostRecentAux b rest else a := rfl

/-- Unfolding equation for mostRecent on a cons cell. -/
theorem mostRecent_cons (a : RoomAllocationResponse) (rest : List RoomAllocationResponse) :
    mostRecent (a :: rest) = some (mostRecentAux a rest) := rfl

/-- The row mostRecentAux picks is one of the candidate rows. -/
theorem mostRecentAux_mem : ∀ (a : RoomAllocationResponse) (l : List RoomAllocationResponse),
    mostRecentAux a l ∈ a :: l := by
  intro a l
  induction l generalizing a with
  | nil => exact List.mem_cons_self a []
  | cons b rest ih =>
    rw [mostRecentAux_cons]
    by_cases h : (mostRecentAux b rest).start_date > a.start_date
    · rw [if_pos h]
      exact List.mem_cons_of_mem a (ih b)
    · rw [if_neg h]
      exact List.mem_cons_self a _

/-- The row mostRecentAux picks has a maximal start_date among the candidates. -/
theorem mostRecentAux_max : ∀ (a : RoomAllocationResponse) (l : List RoomAllocationResponse),
    ∀ x ∈ a :: l, x.start_date ≤ (mostRecentAux a l).start_date := by
  intro a l
  induction l generalizing a with
  | nil =>
    intro x hx
    rcases List.mem_cons.mp hx with h | h
    · subst h; exact le_refl _
    · exact absurd h (List.not_mem_nil x)
  | cons b rest ih =>
    intro x hx
    rw [mostRecentAux_cons]
    by_cases h : (mostRecentAux b rest).start_date > a.start_date
    · rw [if_pos h]
      rcases List.mem_cons.mp hx with hxa | hxr
      · subst hxa; exact le_of_lt h
      · exact ih b x hxr
    · rw [if_neg h]
      rcases List.mem_cons.mp hx with hxa | hxr
      · subst hxa; exact le_refl _
      · exact le_trans (ih b x hxr) (not_lt.mp h)

/-- A row strictly newer than every candidate wins when appended last. -/
theorem mostRecentAux_append_gt : ∀ {d : RoomAllocationResponse} (a : RoomAllocationResponse)
    (l : List RoomAllocationResponse),
    (∀ x ∈ a :: l, x.start_date < d.start_date) → mostRecentAux a (l ++ [d]) = d := by
  intro d a l
  induction l generalizing a with
  | nil =>
    intro h
    have ha : a.start_date < d.start_date := h a (List.mem_cons_self a [])
    rw [List.nil_append, mostRecentAux_cons, mostRecentAux_nil, if_pos ha]
  | cons b rest ih =>
    intro h
    have ha : a.start_date < d.start_date := h a (List.mem_cons_self a _)
    have hrest : mostRecentAux b (rest ++ [d]) = d :=
      ih b (fun x hx => h x (List.mem_cons_of_mem a hx))
    rw [List.cons_append, mostRecentAux_cons, hrest, if_pos ha]

/-- The limit-1 query answers none only on an empty row set. -/
theorem mostRecent_eq_none : ∀ {l : List RoomAllocationResponse},
    mostRecent l = none → l = [] := by
  intro l h
  cases l with
  | nil => rfl
  | cons a rest => exact Option.noConfusion (mostRecent_cons a rest ▸ h)

/-- The row the limit-1 query answers is a row of the queried set. -/
theorem mostRecent_mem : ∀ {l : List RoomAllocationResponse} {d : RoomAllocationResponse},
    mostRecent l = some d → d ∈ l := by
  intro l d h
  cases l with
  | nil => exact Option.noConfusion h
  | cons a rest =>
    rw [mostRecent_cons] at h
    have hd := Option.some.inj h
    rw [← hd]
    exact mostRecentAux_mem a rest

/-- The row the limit-1 query answers has a maximal start_date among the
queried set. -/
theorem mostRecent_max : ∀ {l : List RoomAllocationResponse} {d : RoomAllocationResponse},
    mostRecent l = some d → ∀ x ∈ l, x.start_date ≤ d.start_date := by
  intro l d h x hx
  cases l with
  | nil => exact Option.noConfusion h
  | cons a rest =>
    rw [mostRecent_cons] at h
    have hd := Option.some.inj h
    rw [← hd]
    exact mostRecentAux_max a rest x hx

/-- A nonempty row set makes the limit-1 query answer a row. -/
theorem mostRecent_of_ne_nil {l : List RoomAllocationResponse} (h : l ≠ []) :
    ∃ d, mostRecent l = some d := by
  cases hm : mostRecent l with
  | none => exact absurd (mostRecent_eq_none hm) h
  | some d => exact ⟨d, rfl⟩

/-- A row whose start_date exceeds every other row's is the one the
limit-1 query answers when it is appended last. -/
theorem mostRecent_append_gt : ∀ {l : List RoomAllocationResponse} {d : RoomAllocationResponse},
    (∀ x ∈ l, x.start_date < d.start_date) → mostRecent (l ++ [d]) = some d := by
  intro l d h
  cases l with
  | nil => rfl
  | cons a rest =>
    rw [List.cons_append, mostRecent_cons]
    rw [mostRecentAux_append_gt a rest (fun x hx => h x hx)]

/-- Destructuring a successful inner join of an allocation with its room. -/
theorem allocationJoin_some {s : Store} {a : AllocationRecord} {d : RoomAllocationResponse}
    (h : allocationJoin s a = some d) :
    ∃ r, s.rooms.find? (fun room => room.id == a.room_id) = some r ∧
      d = { id := a.id, start_date := a.start_date, end_date := a.end_date, rooms := r } := by
  unfold allocationJoin at h
  cases hf : s.rooms.find? (fun room => room.id == a.room_id) with
  | none => rw [hf] at h; exact Option.noConfusion h
  | some r =>
    rw [hf] at h
    simp only [Option.map_some'] at h
    exact ⟨r, rfl, (Option.some.inj h).symm⟩

/-- A record whose room is found joins to the corresponding response row. -/
theorem allocationJoin_of_find {s : Store} {a : AllocationRecord} {r : Room}
    (h : s.rooms.find? (fun room => room.id == a.room_id) = some r) :
    allocationJoin s a =
      some { id := a.id, start_date := a.start_date, end_date := a.end_date, rooms := r } := by
  unfold allocationJoin
  rw [h]
  rfl

/-- C5: for every room identifier, book invoked while the identity is
unauthenticated throws the unauthenticated error, attempts no insert, and
leaves the store unchanged. -/
theorem book_unauthenticated
    (env : BookEnv) (s : Store) (roomId : String) (st : ComponentState)
    (h : env.auth = none) :
    (handleBookRoom env s roomId st).thrown = some ErrKind.unauthenticated ∧
    (handleBookRoom env s roomId st).insertAttempts = 0 ∧
    (handleBookRoom env s roomId st).store = s := by
  simp [handleBookRoom, h]

/-- Witness for book_unauthenticated at a concrete environment. -/
theorem book_unauthenticated_witness :
    unauthBookEnv.auth = none ∧
    ((handleBookRoom unauthBookEnv sampleStore ridR1 initialState).thrown =
        some ErrKind.unauthenticated ∧
      (handleBookRoom unauthBookEnv sampleStore ridR1 initialState).insertAttempts = 0 ∧
      (handleBookRoom unauthBookEnv sampleStore ridR1 initialState).store = sampleStore) :=
  ⟨rfl, book_unauthenticated unauthBookEnv sampleStore ridR1 initialState rfl⟩

/-- C6: for every identity, a failure of either store query during resolve
makes resolve throw the query-failure error, set the generic fetch error
message, and leave both the available-rooms state and the
current-allocation state unchanged, so no partial room list is returned. -/
theorem resolve_query_failure
    (env : ResolveEnv) (st : ComponentState) (uid : String)
    (hauth : env.auth = some uid)
    (hfail : env.allocResp = DbResult.failure ∨
      (env.allocResp = DbResult.success none ∧ env.roomsResp = DbResult.failure)) :
    (fetchCurrentAllocationAndRooms env st).thrown = some ErrKind.queryFailure ∧
    (fetchCurrentAllocationAndRooms env st).state.error = some fetchErrorMsg ∧
    (fetchCurrentAllocationAndRooms env st).state.availableRooms = st.availableRooms ∧
    (fetchCurrentAllocationAndRooms env st).state.currentAllocation = st.currentAllocation := by
  rcases hfail with hf | ⟨hf1, hf2⟩
  · simp [fetchCurrentAllocationAndRooms, hauth, hf]
  · simp [fetchCurrentAllocationAndRooms, hauth, hf1, hf2]

/-- Witness for resolve_query_failure at a concrete environment. -/
theorem resolve_query_failure_witness :
    failAllocEnv.auth = some studentA ∧
    failAllocEnv.allocResp = DbResult.failure ∧
    ((fetchCurrentAllocationAndRooms failAllocEnv initialState).thrown =
        some ErrKind.queryFailure ∧
      (fetchCurrentAllocationAndRooms failAllocEnv initialState).state.error =
        some fetchErrorMsg ∧
      (fetchCurrentAllocationAndRooms failAllocEnv initialState).state.availableRooms =
        initialState.availableRooms ∧
      (fetchCurrentAllocationAndRooms failAllocEnv initialState).state.currentAllocation =
        initialState.currentAllocation) :=
  ⟨rfl, rfl, resolve_query_failure failAllocEnv initialState studentA rfl (Or.inl rfl)⟩

/-- C7: for every identity and room identifier, a failing insert during
book throws the insert-failure error, logs it, sets the generic booking
error message, attempts the insert exactly once with no retry, leaves the
store unchanged, and does not run the refresh resolve. -/
theorem book_insert_failure
    (env : BookEnv) (s : Store) (roomId : String) (st : ComponentState) (uid : String)
    (hauth : env.auth = some uid) (hf : env.insertFails = true) :
    (handleBookRoom env s roomId st).thrown = some ErrKind.insertFailure ∧
    (handleBookRoom env s roomId st).logged = true ∧
    (handleBookRoom env s roomId st).state.error = some bookErrorMsg ∧
    (handleBookRoom env s roomId st).insertAttempts = 1 ∧
    (handleBookRoom env s roomId st).store = s ∧
    (handleBookRoom env s roomId st).resolveRan = false := by
  simp [handleBookRoom, hauth, hf]

/-- Witness for book_insert_failure at a concrete environment. -/
theorem book_insert_failure_witness :
    failBookEnv.auth = some studentA ∧ failBookEnv.insertFails = true ∧
    ((handleBookRoom failBookEnv sampleStore ridR1 initialState).thrown =
        some ErrKind.insertFailure ∧
      (handleBookRoom failBookEnv sampleStore ridR1 initialState).logged = true ∧
      (handleBookRoom failBookEnv sampleStore ridR1 initialState).state.error =
        some bookErrorMsg ∧
      (handleBookRoom failBookEnv sampleStore ridR1 initialState).insertAttempts = 1 ∧
      (handleBookRoom failBookEnv sampleStore ridR1 initialState).store = sampleStore ∧
      (handleBookRoom failBookEnv sampleStore ridR1 initialState).resolveRan = false) :=
  ⟨rfl, rfl, book_insert_failure failBookEnv sampleStore ridR1 initialState studentA rfl rfl⟩

/-- C8: every completed run of resolve ends with the loading flag false,
and every completed run of book ends with the bookingInProgress flag
false, on success and on failure alike. -/
theorem flags_cleared_after_completion :
    (∀ (env : ResolveEnv) (st : ComponentState),
      (fetchCurrentAllocationAndRooms env st).state.loading = false) ∧
    (∀ (env : BookEnv) (s : Store) (roomId : String) (st : ComponentState),
      (handleBookRoom env s roomId st).state.bookingInProgress = false) := by
  constructor
  · intro env st
    obtain ⟨auth, allocResp, roomsResp⟩ := env
    cases auth with
    | none => rfl
    | some u =>
      cases allocResp with
      | failure => rfl
      | success data =>
        cases data with
        | some d => rfl
        | none =>
          cases roomsResp with
          | failure => rfl
          | success d2 => rfl
  · intro env s roomId st
    obtain ⟨auth, insertFails, nowT, newId⟩ := env
    cases auth with
    | none => rfl
    | some u =>
      cases insertFails with
      | false => rfl
      | true => rfl

/-- C9: when the allocation query finds a row, resolve returns without
issuing the rooms query and leaves the available-rooms state unchanged;
and when resolve throws, it leaves both the current-allocation state and
the available-rooms state unchanged and only records the generic fetch
error message. -/
theorem resolve_frame
    (envA envB : ResolveEnv) (stA stB : ComponentState) (uid : String)
    (d : RoomAllocationResponse) (e : ErrKind)
    (hauth : envA.auth = some uid)
    (hdata : envA.allocResp = DbResult.success (some d))
    (hthrown : (fetchCurrentAllocationAndRooms envB stB).thrown = some e) :
    (fetchCurrentAllocationAndRooms envA stA).roomsQueried = false ∧
    (fetchCurrentAllocationAndRooms envA stA).state.availableRooms = stA.availableRooms ∧
    (fetchCurrentAllocationAndRooms envB stB).state.currentAllocation = stB.currentAllocation ∧
    (fetchCurrentAllocationAndRooms envB stB).state.availableRooms = stB.availableRooms ∧
    (fetchCurrentAllocationAndRooms envB stB).state.error = some fetchErrorMsg := by
  have hB :
      (fetchCurrentAllocationAndRooms envB stB).state.currentAllocation =
          stB.currentAllocation ∧
        (fetchCurrentAllocationAndRooms envB stB).state.availableRooms = stB.availableRooms ∧
        (fetchCurrentAllocationAndRooms envB stB).state.error = some fetchErrorMsg := by
    obtain ⟨auth, allocResp, roomsResp⟩ := envB
    cases auth with
    | none => simp [fetchCurrentAllocationAndRooms]
    | some u =>
      cases allocResp with
      | failure => simp [fetchCurrentAllocationAndRooms]
      | success data =>
        cases data with
        | some dd => simp [fetchCurrentAllocationAndRooms] at hthrown
        | none =>
          cases roomsResp with
          | failure => simp [fetchCurrentAllocationAndRooms]
          | success d2 => simp [fetchCurrentAllocationAndRooms] at hthrown
  refine ⟨?_, ?_, hB.1, hB.2.1, hB.2.2⟩
  · simp [fetchCurrentAllocationAndRooms, hauth, hdata]
  · simp [fetchCurrentAllocationAndRooms, hauth, hdata]

/-- Witness for resolve_frame at concrete environments. -/
theorem resolve_frame_witness :
    foundEnv.auth = some studentA ∧
    foundEnv.allocResp = DbResult.success (some sampleResponse) ∧
    (fetchCurrentAllocationAndRooms failAllocEnv initialState).thrown =
      some ErrKind.queryFailure ∧
    ((fetchCurrentAllocationAndRooms foundEnv initialState).roomsQueried = false ∧
      (fetchCurrentAllocationAndRooms foundEnv initialState).state.availableRooms =
        initialState.availableRooms ∧
      (fetchCurrentAllocationAndRooms failAllocEnv initialState).state.currentAllocation =
        initialState.currentAllocation ∧
      (fetchCurrentAllocationAndRooms failAllocEnv initialState).state.availableRooms =
        initialState.availableRooms ∧
      (fetchCurrentAllocationAndRooms failAllocEnv initialState).state.error =
        some fetchErrorMsg) :=
  ⟨rfl, rfl, rfl,
    resolve_frame foundEnv failAllocEnv initialState initialState studentA
      sampleResponse ErrKind.queryFailure rfl rfl rfl⟩

/-- C10: an unauthenticated resolve issues neither store query, throws the
unauthenticated error, and surfaces the same generic fetch error message
that a failing store query surfaces, so the two are indistinguishable to
the caller. -/
theorem resolve_unauthenticated_no_query
    (envU envF : ResolveEnv) (stU stF : ComponentState) (uid : String)
    (hU : envU.auth = none)
    (hFa : envF.auth = some uid)
    (hFf : envF.allocResp = DbResult.failure) :
    (fetchCurrentAllocationAndRooms envU stU).allocQueried = false ∧
    (fetchCurrentAllocationAndRooms envU stU).roomsQueried = false ∧
    (fetchCurrentAllocationAndRooms envU stU).thrown = some ErrKind.unauthenticated ∧
    (fetchCurrentAllocationAndRooms envU stU).state.error = some fetchErrorMsg ∧
    (fetchCurrentAllocationAndRooms envF stF).state.error =
      (fetchCurrentAllocationAndRooms envU stU).state.error := by
  refine ⟨?_, ?_, ?_, ?_, ?_⟩ <;> simp [fetchCurrentAllocationAndRooms, hU, hFa, hFf]

/-- Witness for resolve_unauthenticated_no_query at concrete environments. -/
theorem resolve_unauthenticated_no_query_witness :
    unauthEnv.auth = none ∧
    failAllocEnv.auth = some studentA ∧
    failAllocEnv.allocResp = DbResult.failure ∧
    ((fetchCurrentAllocationAndRooms unauthEnv initialState).allocQueried = false ∧
      (fetchCurrentAllocationAndRooms unauthEnv initialState).roomsQueried = false ∧
      (fetchCurrentAllocationAndRooms unauthEnv initialState).thrown =
        some ErrKind.unauthenticated ∧
      (fetchCurrentAllocationAndRooms unauthEnv initialState).state.error =
        some fetchErrorMsg ∧
      (fetchCurrentAllocationAndRooms failAllocEnv initialState).state.error =
        (fetchCurrentAllocationAndRooms unauthEnv initialState).state.error) :=
  ⟨rfl, rfl, rfl,
    resolve_unauthenticated_no_query unauthEnv failAllocEnv initialState initialState
      studentA rfl rfl rfl⟩

/-- Unfolding of the success branch of handleBookRoom: an authenticated
user with a succeeding insert appends the new record and refreshes by
re-running the resolve operation against the updated store. -/
theorem handleBookRoom_success (env : BookEnv) (s : Store) (roomId : String)
    (st : ComponentState) (uid : String)
    (hauth : env.auth = some uid) (hok : env.insertFails = false) :
    handleBookRoom env s roomId st =
      { state := { (fetchCurrentAllocationAndRooms
            (honestEnv (storeAfterInsert env s uid roomId) uid)
            { st with bookingInProgress := true }).state with bookingInProgress := false },
        store := storeAfterInsert env s uid roomId,
        insertAttempts := 1, resolveRan := true, thrown := none, logged := false } := by
  simp [handleBookRoom, hauth, hok, storeAfterInsert, insertedRecord]

/-- After a successful insert of an allocation on an existing room at a
time strictly later than every earlier allocation of the same student, the
allocation query answers exactly the joined new record. -/
theorem allocationQuery_after_insert (env : BookEnv) (s : Store) (uid roomId : String)
    (r : Room)
    (hr : s.rooms.find? (fun room => room.id == roomId) = some r)
    (hfresh : ∀ a ∈ s.room_allocations, a.student_id = uid → a.start_date < env.now) :
    allocationQuery (storeAfterInsert env s uid roomId) uid =
      some { id := env.newId, start_date := env.now, end_date := none, rooms := r } := by
  have hjoin : allocationJoin (storeAfterInsert env s uid roomId)
      (insertedRecord env uid roomId) =
      some { id := env.newId, start_date := env.now, end_date := none, rooms := r } :=
    allocationJoin_of_find hr
  show mostRecent (((s.room_allocations ++ [insertedRecord env uid roomId]).filter
      (fun a => a.student_id == uid)).filterMap
      (allocationJoin (storeAfterInsert env s uid roomId))) = _
  rw [List.filter_append]
  have hfone : [insertedRecord env uid roomId].filter (fun a => a.student_id == uid) =
      [insertedRecord env uid roomId] := by
    simp [insertedRecord]
  rw [hfone, List.filterMap_append]
  have hfm : [insertedRecord env uid roomId].filterMap
      (allocationJoin (storeAfterInsert env s uid roomId)) =
      [{ id := env.newId, start_date := env.now, end_date := none, rooms := r }] := by
    simp [hjoin]
  rw [hfm]
  apply mostRecent_append_gt
  intro x hx
  obtain ⟨a, hamem, hjoinx⟩ := List.mem_filterMap.mp hx
  obtain ⟨ra, hfa, hxeq⟩ := allocationJoin_some hjoinx
  have hamem2 := List.mem_filter.mp hamem
  have hauid : a.student_id = uid := by simpa using hamem2.2
  have hlt := hfresh a hamem2.1 hauid
  rw [hxeq]
  exact hlt

/-- C1: for every identity with at least one allocation record in the
store (whatever its end timestamp), when each of the identity's records
references an existing room, resolve against the honest store sets the
current-allocation state to the identity's most recent allocation (maximal
start_date) joined with its room, issues no rooms query, and leaves the
available-rooms state unchanged, so it never returns the available-room
set. -/
theorem resolve_existing_allocation
    (s : Store) (uid : String) (st : ComponentState)
    (hex : ∃ a ∈ s.room_allocations, a.student_id = uid)
    (hri : ∀ a ∈ s.room_allocations, a.student_id = uid →
      (s.rooms.find? (fun room => room.id == a.room_id)).isSome) :
    ∃ rec r,
      rec ∈ s.room_allocations ∧ rec.student_id = uid ∧
      (∀ a ∈ s.room_allocations, a.student_id = uid → a.start_date ≤ rec.start_date) ∧
      s.rooms.find? (fun room => room.id == rec.room_id) = some r ∧
      (fetchCurrentAllocationAndRooms (honestEnv s uid) st).state.currentAllocation =
        some { id := rec.id, room := r, start_date := rec.start_date,
               end_date := rec.end_date } ∧
      (fetchCurrentAllocationAndRooms (honestEnv s uid) st).roomsQueried = false ∧
      (fetchCurrentAllocationAndRooms (honestEnv s uid) st).state.availableRooms =
        st.availableRooms := by
  obtain ⟨a0, ha0mem, ha0uid⟩ := hex
  have ha0mine : a0 ∈ s.room_allocations.filter (fun a => a.student_id == uid) :=
    List.mem_filter.mpr ⟨ha0mem, by simp [ha0uid]⟩
  obtain ⟨r0, hr0⟩ := Option.isSome_iff_exists.mp (hri a0 ha0mem ha0uid)
  have hj0 := allocationJoin_of_find hr0
  have hne : ((s.room_allocations.filter (fun a => a.student_id == uid)).filterMap
      (allocationJoin s)) ≠ [] := by
    intro hnil
    have hmem0 := List.mem_filterMap.mpr ⟨a0, ha0mine, hj0⟩
    rw [hnil] at hmem0
    exact List.not_mem_nil _ hmem0
  obtain ⟨d, hd⟩ := mostRecent_of_ne_nil hne
  have hq : allocationQuery s uid = some d := hd
  have hdmem := mostRecent_mem hd
  obtain ⟨rec, hrecmine, hrecjoin⟩ := List.mem_filterMap.mp hdmem
  obtain ⟨r, hfind, hdeq⟩ := allocationJoin_some hrecjoin
  have hrecmem : rec ∈ s.room_allocations := (List.mem_filter.mp hrecmine).1
  have hrecuid : rec.student_id = uid := by
    simpa using (List.mem_filter.mp hrecmine).2
  refine ⟨rec, r, hrecmem, hrecuid, ?_, hfind, ?_, ?_, ?_⟩
  · intro a hamem hauid
    obtain ⟨ra, hra⟩ := Option.isSome_iff_exists.mp (hri a hamem hauid)
    have hja := allocationJoin_of_find hra
    have hamine : a ∈ s.room_allocations.filter (fun x => x.student_id == uid) :=
      List.mem_filter.mpr ⟨hamem, by simp [hauid]⟩
    have hainj := List.mem_filterMap.mpr ⟨a, hamine, hja⟩
    have hle := mostRecent_max hd _ hainj
    rw [hdeq] at hle
    exact hle
  · simp [fetchCurrentAllocationAndRooms, honestEnv, hq, hdeq]
  · simp [fetchCurrentAllocationAndRooms, honestEnv, hq]
  · simp [fetchCurrentAllocationAndRooms, honestEnv, hq]

/-- Witness for resolve_existing_allocation at a concrete store holding an
ended allocation of studentA. -/
theorem resolve_existing_allocation_witness :
    (∃ a ∈ allocatedStore.room_allocations, a.student_id = studentA) ∧
    (∀ a ∈ allocatedStore.room_allocations, a.student_id = studentA →
      (allocatedStore.rooms.find? (fun room => room.id == a.room_id)).isSome) ∧
    (∃ rec r,
      rec ∈ allocatedStore.room_allocations ∧ rec.student_id = studentA ∧
      (∀ a ∈ allocatedStore.room_allocations, a.student_id = studentA →
        a.start_date ≤ rec.start_date) ∧
      allocatedStore.rooms.find? (fun room => room.id == rec.room_id) = some r ∧
      (fetchCurrentAllocationAndRooms (honestEnv allocatedStore studentA)
          initialState).state.currentAllocation =
        some { id := rec.id, room := r, start_date := rec.start_date,
               end_date := rec.end_date } ∧
      (fetchCurrentAllocationAndRooms (honestEnv allocatedStore studentA)
          initialState).roomsQueried = false ∧
      (fetchCurrentAllocationAndRooms (honestEnv allocatedStore studentA)
          initialState).state.availableRooms = initialState.availableRooms) :=
  ⟨by decide, by decide,
    resolve_existing_allocation allocatedStore studentA initialState
      (by decide) (by decide)⟩

/-- Membership in the rooms-query answer: a room is answered exactly when
it is in the rooms table and no allocation with a null end_date references
its id. -/
theorem mem_availableRoomsQuery (s : Store) (r : Room) :
    r ∈ availableRoomsQuery s ↔
      (r ∈ s.rooms ∧ ∀ a ∈ s.room_allocations, a.end_date = none → a.room_id ≠ r.id) := by
  unfold availableRoomsQuery openRoomIds
  rw [List.mem_filter]
  constructor
  · rintro ⟨hmem, hnot⟩
    refine ⟨hmem, ?_⟩
    intro a hamem haend harid
    rw [Bool.not_eq_true', ← Bool.not_eq_true] at hnot
    apply hnot
    rw [List.elem_iff]
    rw [List.mem_map]
    exact ⟨a, List.mem_filter.mpr ⟨hamem, by simp [haend]⟩, harid⟩
  · rintro ⟨hmem, hnone⟩
    refine ⟨hmem, ?_⟩
    rw [Bool.not_eq_true', ← Bool.not_eq_true]
    intro hcon
    rw [List.elem_iff, List.mem_map] at hcon
    obtain ⟨a, hafil, harid⟩ := hcon
    have h2 := List.mem_filter.mp hafil
    have haend : a.end_date = none := by simpa using h2.2
    exact hnone a h2.1 haend harid

/-- C2: for every identity with zero allocation records, resolve against
the honest store sets the available-rooms state to exactly the rooms whose
id does not appear among the room ids of allocations with a null
end_date; and a resolve whose rooms query answers null data sets the
available-rooms state to the empty list. -/
theorem resolve_no_allocation
    (s : Store) (uid : String) (st : ComponentState)
    (envN : ResolveEnv) (stN : ComponentState) (uidN : String)
    (h : ∀ a ∈ s.room_allocations, a.student_id ≠ uid)
    (hNa : envN.auth = some uidN)
    (hN1 : envN.allocResp = DbResult.success none)
    (hN2 : envN.roomsResp = DbResult.success none) :
    (fetchCurrentAllocationAndRooms (honestEnv s uid) st).state.availableRooms =
        availableRoomsQuery s ∧
    (∀ r : Room,
      r ∈ (fetchCurrentAllocationAndRooms (honestEnv s uid) st).state.availableRooms ↔
        (r ∈ s.rooms ∧ ∀ a ∈ s.room_allocations, a.end_date = none → a.room_id ≠ r.id)) ∧
    (fetchCurrentAllocationAndRooms envN stN).state.availableRooms = [] := by
  have hfil : s.room_allocations.filter (fun a => a.student_id == uid) = [] := by
    rw [List.filter_eq_nil_iff]
    intro a ha
    simpa using h a ha
  have hq : allocationQuery s uid = none := by
    unfold allocationQuery
    rw [hfil]
    rfl
  have h1 : (fetchCurrentAllocationAndRooms (honestEnv s uid) st).state.availableRooms =
      availableRoomsQuery s := by
    simp [fetchCurrentAllocationAndRooms, honestEnv, hq]
  refine ⟨h1, ?_, ?_⟩
  · intro r
    rw [h1]
    exact mem_availableRoomsQuery s r
  · simp [fetchCurrentAllocationAndRooms, hNa, hN1, hN2]

/-- Witness for resolve_no_allocation at a concrete store with no
allocations and a concrete null-data environment. -/
theorem resolve_no_allocation_witness :
    (∀ a ∈ sampleStore.room_allocations, a.student_id ≠ studentA) ∧
    nullRoomsEnv.auth = some studentA ∧
    nullRoomsEnv.allocResp = DbResult.success none ∧
    nullRoomsEnv.roomsResp = DbResult.success none ∧
    ((fetchCurrentAllocationAndRooms (honestEnv sampleStore studentA)
          initialState).state.availableRooms = availableRoomsQuery sampleStore ∧
      (∀ r : Room,
        r ∈ (fetchCurrentAllocationAndRooms (honestEnv sampleStore studentA)
            initialState).state.availableRooms ↔
          (r ∈ sampleStore.rooms ∧
            ∀ a ∈ sampleStore.room_allocations, a.end_date = none → a.room_id ≠ r.id)) ∧
      (fetchCurrentAllocationAndRooms nullRoomsEnv initialState).state.availableRooms = []) :=
  ⟨by decide, rfl, rfl, rfl,
    resolve_no_allocation sampleStore studentA initialState nullRoomsEnv initialState
      studentA (by decide) rfl rfl rfl⟩

/-- C3: a successful book by an authenticated identity of an existing room
at a time strictly later than all of the identity's previous allocations
appends exactly one record of the form {student, room, start = now,
end = null} to the allocation store, and the refresh resolve it triggers
returns an active (null end_date) allocation referencing that room. -/
theorem book_success_inserts_and_resolves
    (env : BookEnv) (s : Store) (roomId : String) (st : ComponentState) (uid : String)
    (hauth : env.auth = some uid)
    (hok : env.insertFails = false)
    (hroom : (s.rooms.find? (fun room => room.id == roomId)).isSome)
    (hfresh : ∀ a ∈ s.room_allocations, a.student_id = uid → a.start_date < env.now) :
    ∃ r : Room,
      s.rooms.find? (fun room => room.id == roomId) = some r ∧ r.id = roomId ∧
      (handleBookRoom env s roomId st).store.room_allocations =
        s.room_allocations ++
          [{ id := env.newId, student_id := uid, room_id := roomId,
             start_date := env.now, end_date := none }] ∧
      (handleBookRoom env s roomId st).insertAttempts = 1 ∧
      (handleBookRoom env s roomId st).state.currentAllocation =
        some { id := env.newId, room := r, start_date := env.now, end_date := none } := by
  obtain ⟨r, hr⟩ := Option.isSome_iff_exists.mp hroom
  have hrid : r.id = roomId := by simpa using List.find?_some hr
  have hbook := handleBookRoom_success env s roomId st uid hauth hok
  have hq2 := allocationQuery_after_insert env s uid roomId r hr hfresh
  refine ⟨r, hr, hrid, ?_, ?_, ?_⟩
  · rw [hbook]
    simp [storeAfterInsert, insertedRecord]
  · rw [hbook]
  · rw [hbook]
    simp [fetchCurrentAllocationAndRooms, honestEnv, hq2]

/-- Witness for book_success_inserts_and_resolves at the sample booking. -/
theorem book_success_inserts_and_resolves_witness :
    sampleBookEnv.auth = some studentA ∧
    sampleBookEnv.insertFails = false ∧
    (sampleStore.rooms.find? (fun room => room.id == ridR1)).isSome ∧
    (∀ a ∈ sampleStore.room_allocations,
      a.student_id = studentA → a.start_date < sampleBookEnv.now) ∧
    (∃ r : Room,
      sampleStore.rooms.find? (fun room => room.id == ridR1) = some r ∧ r.id = ridR1 ∧
      (handleBookRoom sampleBookEnv sampleStore ridR1 initialState).store.room_allocations =
        sampleStore.room_allocations ++
          [{ id := sampleBookEnv.newId, student_id := studentA, room_id := ridR1,
             start_date := sampleBookEnv.now, end_date := none }] ∧
      (handleBookRoom sampleBookEnv sampleStore ridR1 initialState).insertAttempts = 1 ∧
      (handleBookRoom sampleBookEnv sampleStore ridR1 initialState).state.currentAllocation =
        some { id := sampleBookEnv.newId, room := r, start_date := sampleBookEnv.now,
               end_date := none }) :=
  ⟨rfl, rfl, by decide, by decide,
    book_success_inserts_and_resolves sampleBookEnv sampleStore ridR1 initialState
      studentA rfl rfl (by decide) (by decide)⟩

/-- C4: in the sample store with rooms R1 and R2 and no allocations,
resolve for studentA answers available rooms [R1, R2]; booking R1 as
studentA inserts exactly the one new open allocation record; the refreshed
state shows an active allocation on R1; and resolve for studentB against
the updated store answers available rooms [R2], R1 being excluded because
its allocation has no end date. -/
theorem book_flow_example :
    (fetchCurrentAllocationAndRooms (honestEnv sampleStore studentA)
        initialState).state.availableRooms = [roomR1, roomR2] ∧
    (handleBookRoom sampleBookEnv sampleStore ridR1 initialState).store.room_allocations =
      [{ id := allocId1, student_id := studentA, room_id := ridR1,
         start_date := 100, end_date := none }] ∧
    (handleBookRoom sampleBookEnv sampleStore ridR1 initialState).state.currentAllocation =
      some { id := allocId1, room := roomR1, start_date := 100, end_date := none } ∧
    (fetchCurrentAllocationAndRooms (honestEnv storeAfterBook studentB)
        initialState).state.availableRooms = [roomR2] := by
  decide
